import Mathlib

/-!
Verification of the scraping-bvl repository against its specification.

The development shallowly embeds the two core modules:

* `src/Scraper/src/bvl_fetcher.py` — the ingestion pipeline
  (`EnhancedBVLDataFetcher.fetch_data` / `process_data` / `save_data` / `run`);
* `src/BackEnd/src/main.py` — the query service
  (`CSVDataLoader._load_data`, module-level startup, `health_check`,
  `get_companies`, `get_credicorp_data`).

Conventions of the embedding:

* company names (ticker identity) are lists of characters, so that the
  pandas string operations `.str.strip().str.upper()` can be modelled
  character by character;
* timestamps are integers (seconds); `datetime.now().isoformat()` and the
  parsed `timestamp` column are both modelled as such an instant, and
  `datetime.timestamp(...)` is the identity on them;
* prices and other numeric columns are rationals; a pandas `NaN` cell is
  `Option.none`;
* a Python function that may raise is an `Except`; a function that
  swallows exceptions and returns `None` is an `Option`.
-/

/-- Ticker / company identity: the character content of a Python string. -/
abbrev CName := List Char

/-! ## Scraper: `src/Scraper/src/bvl_fetcher.py` -/

/-- One quote cell of a raw JSON record.  The distinction between an
absent key and a present-but-null value matters: `pd.DataFrame(records)`
creates a column iff SOME record carries the key, and only cells of an
existing column can be `fillna(0)`-defaulted — when a required column is
carried by no record at all, `df[["buy", "sell"]]` raises `KeyError`. -/
inductive JsonCell where
  | absent
  | null
  | num (q : ℚ)
deriving DecidableEq, Repr

/-- The record carries the key (it contributes the column to the
DataFrame built from the record list). -/
def cellKeyPresent : JsonCell → Bool
  | .absent => false
  | .null => true
  | .num _ => true

/-- The value of a cell of an existing column after `fillna(0)`: a NaN
cell (absent key, or key present with a null value) becomes 0. -/
def cellFillZero : JsonCell → ℚ
  | .absent => 0
  | .null => 0
  | .num q => q

/-- One raw per-company record extracted from the JSON `content` list.
The `buy`/`sell` quote cells keep the absent/null distinction (see
`JsonCell`); for `last`, which the pipeline only carries through, `none`
is an absent / NaN cell. -/
structure RawRec where
  companyName : CName
  buy : JsonCell
  sell : JsonCell
  last : Option ℚ
deriving DecidableEq, Repr

/-- The shape of the `content` field of the decoded response body:
`data.get("content", [])` yields `[]` when the key is missing, and
`process_data` rejects a value that is not a list. -/
inductive ContentField where
  | missing
  | notList
  | list (records : List RawRec)
deriving DecidableEq, Repr

/-- A row of the DataFrame built by `process_data`, i.e. a row of the CSV
Store: `buy`/`sell` have been `fillna(0)`-defaulted, and the batch
timestamp column has been stamped. -/
structure ProcRec where
  companyName : CName
  buy : ℚ
  sell : ℚ
  last : Option ℚ
  timestamp : Int
deriving DecidableEq, Repr

/-- Outcome of one call of the body of a Python function under a retry
decorator: either a returned value or a raised exception. -/
inductive AttemptOutcome (α : Type) where
  | ok (a : α)
  | exc
deriving DecidableEq, Repr

/-- tenacity's retry loop: call `f` on successive attempt indices, retrying
while the call raises, up to `fuel` remaining attempts.  Returns the total
number of attempts made together with the final outcome.
(`@retry(stop=stop_after_attempt(n), wait=wait_exponential(multiplier=1))`
retries exactly on raised exceptions; the backoff sleeps do not affect the
returned value and are not modelled.) -/
def retryAttempts {α : Type} (f : Nat → AttemptOutcome α) : Nat → Nat → Nat × AttemptOutcome α
  | 0, i => (i, .exc)
  | fuel + 1, i =>
    match f i with
    | .ok a => (i + 1, .ok a)
    | .exc => if fuel = 0 then (i + 1, .exc) else retryAttempts f fuel (i + 1)

/-- The `stop_after_attempt(maxAttempts)` wrapper around `retryAttempts`. -/
def retryCall {α : Type} (maxAttempts : Nat) (f : Nat → AttemptOutcome α) : Nat × AttemptOutcome α :=
  retryAttempts f maxAttempts 0

/-- The body of `EnhancedBVLDataFetcher.fetch_data`: the whole network
round trip sits inside `try: ... except Exception: return None`, so a
raising upstream is converted to a returned `None`.  `upstream i` is the
outcome of the `i`-th network attempt. -/
def fetch_data_body (upstream : Nat → AttemptOutcome ContentField) (i : Nat) : Option ContentField :=
  match upstream i with
  | .ok d => some d
  | .exc => none

/-- Model of `fetch_data` as decorated: `@retry(stop=stop_after_attempt(3), ...)`
applied to a body that never raises (it returns `None` instead).  The
result records how many attempts tenacity actually made. -/
def fetch_data (upstream : Nat → AttemptOutcome ContentField) : Nat × AttemptOutcome (Option ContentField) :=
  retryCall 3 (fun i => .ok (fetch_data_body upstream i))

/-- An upstream that raises on every attempt (network down, permanent
non-2xx, permanently malformed body). -/
def permanentlyFailingUpstream : Nat → AttemptOutcome ContentField := fun _ => .exc

/-- Model of `data.get("content", [])` followed by the `isinstance(..., list)`
check: a missing key defaults to the empty list, a non-list value is an
error (`process_data` returns `None`). -/
def contentList : ContentField → Option (List RawRec)
  | .missing => some []
  | .notList => none
  | .list records => some records

/-- Whether `pd.DataFrame(filtered)` has both the `buy` and the `sell`
column: each key must be carried by at least one record.  When this is
false, `df[["buy", "sell"]]` raises `KeyError`. -/
def quoteColumnsPresent (filtered : List RawRec) : Bool :=
  (filtered.any (fun c => cellKeyPresent c.buy))
    && (filtered.any (fun c => cellKeyPresent c.sell))

/-- Model of `EnhancedBVLDataFetcher.process_data`: filter the records to the
target companies and fail (return `None`) when nothing matches.  Then
`df = pd.DataFrame(filtered_companies)` has a `buy` (resp. `sell`) column
iff at least one retained record carries the key; when either column is
missing, `df[["buy", "sell"]] = df[["buy", "sell"]].fillna(0)` raises
`KeyError`, which the catch-all `except` turns into `None`.  Otherwise
`fillna(0)` turns every NaN cell of the two columns into 0 and the batch
timestamp `now` is stamped on every row. -/
def process_data (data : ContentField) (target_companies : List CName) (now : Int) :
    Option (List ProcRec) :=
  match contentList data with
  | none => none
  | some companies_list =>
    let filtered_companies := companies_list.filter
      (fun c => target_companies.contains c.companyName)
    if filtered_companies.isEmpty then none
    else if quoteColumnsPresent filtered_companies then
      some (filtered_companies.map (fun c =>
        { companyName := c.companyName
          buy := cellFillZero c.buy
          sell := cellFillZero c.sell
          last := c.last
          timestamp := now }))
    else none

/-- The dedup key of the Store: the pair (`timestamp`, `companyName`),
matching `drop_duplicates(subset=['timestamp', 'companyName'], ...)`. -/
def rkey (r : ProcRec) : Int × CName := (r.timestamp, r.companyName)

/-- pandas `drop_duplicates(subset=['timestamp','companyName'],
keep='last')`: of all rows sharing a key, only the last occurrence is
kept, in its original position. -/
def drop_duplicates_keep_last : List ProcRec → List ProcRec
  | [] => []
  | r :: rest =>
    if (rest.map rkey).contains (rkey r) then drop_duplicates_keep_last rest
    else r :: drop_duplicates_keep_last rest

/-- Model of `EnhancedBVLDataFetcher.save_data`: when the CSV file already exists
(`existing = some existing_data`) the new batch is concatenated after the
existing rows and the result deduplicated with `keep='last'`; when it does
not, the batch is written as is. -/
def save_data (existing : Option (List ProcRec)) (df : List ProcRec) : List ProcRec :=
  match existing with
  | some existing_data => drop_duplicates_keep_last (existing_data ++ df)
  | none => df

/-- One iteration of `EnhancedBVLDataFetcher.run`, acting on the Store
(`none` = the CSV file does not exist yet).  `fetched` is what the
decorated `fetch_data` returned.  The boolean records whether `save_data`
was invoked at all. -/
def run_iteration (target_companies : List CName) (now : Int)
    (fetched : Option ContentField) (store : Option (List ProcRec)) :
    Option (List ProcRec) × Bool :=
  match fetched with
  | none => (store, false)
  | some data =>
    match process_data data target_companies now with
    | none => (store, false)
    | some df => (some (save_data store df), true)

/-! ### Dedup lemmas for the Store -/

theorem drop_duplicates_filter_key (l : List ProcRec) (k : Int × CName) :
    (drop_duplicates_keep_last l).filter (fun r => decide (rkey r = k)) =
      ((l.filter (fun r => decide (rkey r = k))).getLast?).toList := by
  induction l with
  | nil => rfl
  | cons r rest ih =>
    by_cases hmem : (rest.map rkey).contains (rkey r)
    · rw [drop_duplicates_keep_last, if_pos hmem]
      by_cases hk : rkey r = k
      · have hex : ∃ x ∈ rest, rkey x = k := by
          rcases List.contains_iff_exists_mem_beq.mp hmem with ⟨a, hmema, hbeq⟩
          rcases List.mem_map.mp hmema with ⟨x, hx, hxk⟩
          refine ⟨x, hx, ?_⟩
          rw [hxk, ← beq_iff_eq.mp hbeq, hk]
        have hne : rest.filter (fun r => decide (rkey r = k)) ≠ [] := by
          rcases hex with ⟨x, hx, hxk⟩
          intro hnil
          have hx' : x ∈ rest.filter (fun r => decide (rkey r = k)) :=
            List.mem_filter.mpr ⟨hx, by simp [hxk]⟩
          rw [hnil] at hx'
          exact absurd hx' (List.not_mem_nil x)
        rw [ih, List.filter_cons_of_pos (by simp [hk])]
        conv_rhs => rw [List.getLast?_eq_getLast _ (List.cons_ne_nil _ _), List.getLast_cons hne]
        rw [List.getLast?_eq_getLast _ hne]
      · rw [ih, List.filter_cons_of_neg (by simp [hk])]
    · rw [drop_duplicates_keep_last, if_neg hmem]
      by_cases hk : rkey r = k
      · have hnomem : ∀ x ∈ rest, rkey x ≠ k := by
          intro x hx hxk
          exact hmem (List.contains_iff_exists_mem_beq.mpr
            ⟨k, List.mem_map.mpr ⟨x, hx, hxk⟩, beq_iff_eq.mpr hk⟩)
        have hfil : rest.filter (fun r => decide (rkey r = k)) = [] := by
          rw [List.filter_eq_nil_iff]
          intro x hx
          simp [hnomem x hx]
        have hfil2 : (drop_duplicates_keep_last rest).filter (fun r => decide (rkey r = k)) = [] := by
          rw [ih, hfil]
          rfl
        rw [List.filter_cons_of_pos (by simp [hk]), hfil2,
          List.filter_cons_of_pos (by simp [hk]), hfil]
        rfl
      · rw [List.filter_cons_of_neg (by simp [hk]), ih,
          List.filter_cons_of_neg (by simp [hk])]

theorem drop_duplicates_length (l : List ProcRec) :
    (drop_duplicates_keep_last l).length = (l.map rkey).toFinset.card := by
  induction l with
  | nil => rfl
  | cons r rest ih =>
    by_cases hmem : (rest.map rkey).contains (rkey r)
    · have hmem' : rkey r ∈ (rest.map rkey).toFinset := by
        rw [List.mem_toFinset]
        rcases List.contains_iff_exists_mem_beq.mp hmem with ⟨a, ha, hbeq⟩
        rwa [← beq_iff_eq.mp hbeq] at ha
      rw [drop_duplicates_keep_last, if_pos hmem, ih, List.map_cons, List.toFinset_cons,
        Finset.insert_eq_self.mpr hmem']
    · have hmem' : rkey r ∉ (rest.map rkey).toFinset := by
        rw [List.mem_toFinset]
        intro hin
        exact hmem (List.contains_iff_exists_mem_beq.mpr ⟨rkey r, hin, by simp⟩)
      rw [drop_duplicates_keep_last, if_neg hmem, List.length_cons, ih, List.map_cons,
        List.toFinset_cons, Finset.card_insert_of_not_mem hmem']

theorem drop_duplicates_keys (l : List ProcRec) :
    ((drop_duplicates_keep_last l).map rkey).toFinset = (l.map rkey).toFinset := by
  induction l with
  | nil => rfl
  | cons r rest ih =>
    by_cases hmem : (rest.map rkey).contains (rkey r)
    · have hmem' : rkey r ∈ (rest.map rkey).toFinset := by
        rw [List.mem_toFinset]
        rcases List.contains_iff_exists_mem_beq.mp hmem with ⟨a, ha, hbeq⟩
        rwa [← beq_iff_eq.mp hbeq] at ha
      rw [drop_duplicates_keep_last, if_pos hmem, ih, List.map_cons, List.toFinset_cons,
        Finset.insert_eq_self.mpr hmem']
    · rw [drop_duplicates_keep_last, if_neg hmem, List.map_cons, List.toFinset_cons, ih,
        List.map_cons, List.toFinset_cons]

theorem filter_key_ne_nil {df : List ProcRec} {k : Int × CName} (hk : k ∈ df.map rkey) :
    df.filter (fun r => decide (rkey r = k)) ≠ [] := by
  rcases List.mem_map.mp hk with ⟨x, hx, hxk⟩
  intro hnil
  have hmem : x ∈ df.filter (fun r => decide (rkey r = k)) :=
    List.mem_filter.mpr ⟨hx, by simp [hxk]⟩
  rw [hnil] at hmem
  exact absurd hmem (List.not_mem_nil x)

/-- Claim C1: merging a batch into an existing Store yields at most one row
per (`timestamp`, `companyName`) key, and for every key occurring in the
batch the retained row is the batch's last row with that key, so on a key
collision between the existing Store and the batch the batch's row wins
(last-write-wins). -/
theorem claim_C1 (existing_data df : List ProcRec) :
    (∀ k : Int × CName,
        ((save_data (some existing_data) df).filter (fun r => decide (rkey r = k))).length ≤ 1)
    ∧ (∀ k : Int × CName, k ∈ df.map rkey →
        (save_data (some existing_data) df).filter (fun r => decide (rkey r = k)) =
          ((df.filter (fun r => decide (rkey r = k))).getLast?).toList) := by
  constructor
  · intro k
    rw [save_data, drop_duplicates_filter_key]
    cases ((existing_data ++ df).filter (fun r => decide (rkey r = k))).getLast? <;> simp
  · intro k hk
    have hne := filter_key_ne_nil hk
    rw [save_data, drop_duplicates_filter_key, List.filter_append, List.getLast?_append,
      List.getLast?_eq_getLast _ hne]
    rfl

/-- The two rows of the spec's last-write-wins scenario: the same
observation window and ticker, first `last=10.5` then `last=11.0`. -/
def scenarioRowA : ProcRec :=
  { companyName := "CREDICORP LTD.".toList, buy := 0, sell := 0, last := some 10.5, timestamp := 1 }

/-- Second scenario row, same dedup key as `scenarioRowA`. -/
def scenarioRowB : ProcRec :=
  { companyName := "CREDICORP LTD.".toList, buy := 0, sell := 0, last := some 11.0, timestamp := 1 }

theorem claim_C1_witness :
    ((1 : Int), "CREDICORP LTD.".toList) ∈ [scenarioRowB].map rkey ∧
      (save_data (some [scenarioRowA]) [scenarioRowB]).filter
          (fun r => decide (rkey r = ((1 : Int), "CREDICORP LTD.".toList))) =
        (([scenarioRowB].filter
            (fun r => decide (rkey r = ((1 : Int), "CREDICORP LTD.".toList)))).getLast?).toList :=
  ⟨by simp [scenarioRowB, rkey],
    (claim_C1 [scenarioRowA] [scenarioRowB]).2 ((1 : Int), "CREDICORP LTD.".toList)
      (by simp [scenarioRowB, rkey])⟩

/-- Claim C2: merging the same batch into a Store twice yields a Store with
exactly the same row count as merging it once (the dedup key absorbs the
repeat). -/
theorem claim_C2 (existing_data df : List ProcRec) :
    (save_data (some (save_data (some existing_data) df)) df).length =
      (save_data (some existing_data) df).length := by
  rw [save_data, save_data, drop_duplicates_length, drop_duplicates_length,
    List.map_append, List.toFinset_append, drop_duplicates_keys, List.map_append,
    List.toFinset_append, Finset.union_assoc, Finset.union_self]

/-- The retry wrapper itself would make exactly 3 attempts if its body let
exceptions escape: the divergence of claim C3 is caused by the body's
catch-all, not by the retry schedule. -/
theorem retryCall_exhausts_on_raising_body :
    retryCall 3 (fun _ => (AttemptOutcome.exc : AttemptOutcome ContentField)) = (3, .exc) := rfl

/-- Claim C3 is violated by the code: `fetch_data` catches every exception
inside its own body and returns `None`, so tenacity's
`stop_after_attempt(3)` never sees a failure. Against a permanently
failing upstream exactly ONE attempt is made (not 3) and the caller
receives `None`. -/
theorem claim_C3_bug :
    fetch_data permanentlyFailingUpstream = (1, .ok none) ∧ (1 : Nat) ≠ 3 :=
  ⟨rfl, by decide⟩

/-- Claim C10: an iteration whose fetch yields no data, or whose
normalization yields no batch, performs no Store write at all and leaves
the Store exactly unchanged. -/
theorem claim_C10 (target_companies : List CName) (now : Int) (store : Option (List ProcRec)) :
    run_iteration target_companies now none store = (store, false)
    ∧ (∀ data, process_data data target_companies now = none →
        run_iteration target_companies now (some data) store = (store, false)) := by
  refine ⟨rfl, ?_⟩
  intro data h
  simp only [run_iteration, h]

theorem claim_C10_witness :
    run_iteration [] 0 none (some [scenarioRowA]) = (some [scenarioRowA], false) ∧
      run_iteration [] 0 (some .notList) (some [scenarioRowA]) = (some [scenarioRowA], false) :=
  ⟨(claim_C10 [] 0 (some [scenarioRowA])).1,
    (claim_C10 [] 0 (some [scenarioRowA])).2 .notList rfl⟩

/-! ## Backend: `src/BackEnd/src/main.py`

Ticker re-normalization.  `CSVDataLoader._load_data` runs
`df["companyName"].str.strip().str.upper()`; we model the two pandas
string operations character-list-wise.  `Char.toUpper` matches Python's
`upper` on the ASCII range the Store actually contains. -/

/-- The whitespace test used by `str.strip()`. -/
def pyIsSpace (c : Char) : Bool := c.isWhitespace

/-- Remove the leading whitespace run. -/
def frontStrip (s : CName) : CName := s.dropWhile pyIsSpace

/-- Remove the trailing whitespace run. -/
def backStrip (s : CName) : CName := ((s.reverse).dropWhile pyIsSpace).reverse

/-- Python `str.strip()`: drop leading and trailing whitespace. -/
def pyStrip (s : CName) : CName := backStrip (frontStrip s)

/-- Python `str.upper()` on the name's characters. -/
def pyUpper (s : CName) : CName := s.map Char.toUpper

/-- The Loader's ticker re-normalization: `.str.strip().str.upper()`. -/
def normalizeName (s : CName) : CName := pyUpper (pyStrip s)

theorem char_toNat_ofNat {n : Nat} (h : n.isValidChar) : (Char.ofNat n).toNat = n := by
  unfold Char.ofNat
  rw [dif_pos h]
  unfold Char.ofNatAux Char.toNat
  simp [UInt32.toNat, BitVec.toNat_ofNatLt]

theorem toUpper_toUpper (c : Char) : c.toUpper.toUpper = c.toUpper := by
  unfold Char.toUpper
  by_cases h : c.toNat ≥ 97 ∧ c.toNat ≤ 122
  · have hv : (c.toNat - 32).isValidChar := Or.inl (by omega)
    have ht : (Char.ofNat (c.toNat - 32)).toNat = c.toNat - 32 := char_toNat_ofNat hv
    rw [if_pos h, ht]
    have hno : ¬(c.toNat - 32 ≥ 97 ∧ c.toNat - 32 ≤ 122) := by omega
    rw [if_neg hno]
  · rw [if_neg h, if_neg h]

theorem isWhitespace_eq_false_of_toNat (c : Char)
    (h : c.toNat ≠ 32 ∧ c.toNat ≠ 9 ∧ c.toNat ≠ 13 ∧ c.toNat ≠ 10) :
    c.isWhitespace = false := by
  unfold Char.isWhitespace
  simp only [Bool.or_eq_false_iff, decide_eq_false_iff_not]
  refine ⟨⟨⟨fun he => h.1 ?_, fun he => h.2.1 ?_⟩, fun he => h.2.2.1 ?_⟩, fun he => h.2.2.2 ?_⟩ <;>
    rw [he] <;> decide

theorem isWhitespace_toUpper (c : Char) : (Char.toUpper c).isWhitespace = c.isWhitespace := by
  unfold Char.toUpper
  by_cases h : c.toNat ≥ 97 ∧ c.toNat ≤ 122
  · have hv : (c.toNat - 32).isValidChar := Or.inl (by omega)
    have ht : (Char.ofNat (c.toNat - 32)).toNat = c.toNat - 32 := char_toNat_ofNat hv
    rw [if_pos h,
      isWhitespace_eq_false_of_toNat (Char.ofNat (c.toNat - 32))
        ⟨by rw [ht]; omega, by rw [ht]; omega, by rw [ht]; omega, by rw [ht]; omega⟩,
      isWhitespace_eq_false_of_toNat c ⟨by omega, by omega, by omega, by omega⟩]
  · rw [if_neg h]

theorem dropWhile_dropWhile_self {α : Type} (p : α → Bool) (l : List α) :
    (l.dropWhile p).dropWhile p = l.dropWhile p := by
  induction l with
  | nil => rfl
  | cons x xs ih =>
    by_cases h : p x
    · simp [List.dropWhile_cons, h, ih]
    · simp [List.dropWhile_cons, h]

theorem frontStrip_frontStrip (s : CName) : frontStrip (frontStrip s) = frontStrip s :=
  dropWhile_dropWhile_self pyIsSpace s

theorem backStrip_backStrip (s : CName) : backStrip (backStrip s) = backStrip s := by
  unfold backStrip
  rw [List.reverse_reverse, dropWhile_dropWhile_self]

theorem backStrip_isPref (s : CName) : backStrip s <+: s := by
  have hsuf : s.reverse.dropWhile pyIsSpace <:+ s.reverse := List.dropWhile_suffix _
  have hp := List.reverse_prefix.mpr hsuf
  rwa [List.reverse_reverse] at hp

theorem frontStrip_eq_self_of_pref {s t : CName} (hpre : t <+: s) (hs : frontStrip s = s) :
    frontStrip t = t := by
  cases t with
  | nil => rfl
  | cons c cs =>
    cases s with
    | nil =>
      rcases hpre with ⟨u, hu⟩
      simp at hu
    | cons d ds =>
      rcases hpre with ⟨u, hu⟩
      have hcd : c = d := by
        have := congrArg (fun l => l.head?) hu
        simpa using this
      have hd : pyIsSpace d = false := by
        by_cases hb : pyIsSpace d = true
        · exfalso
          rw [frontStrip, List.dropWhile_cons, if_pos hb] at hs
          have hlen := congrArg List.length hs
          have hle : (ds.dropWhile pyIsSpace).length ≤ ds.length :=
            (List.dropWhile_suffix pyIsSpace).length_le
          simp at hlen
          omega
        · simpa using hb
      rw [frontStrip, List.dropWhile_cons, hcd, hd]
      simp

theorem frontStrip_backStrip_of_fixed {s : CName} (hs : frontStrip s = s) :
    frontStrip (backStrip s) = backStrip s :=
  frontStrip_eq_self_of_pref (backStrip_isPref s) hs

theorem pyStrip_pyStrip (s : CName) : pyStrip (pyStrip s) = pyStrip s := by
  unfold pyStrip
  rw [frontStrip_backStrip_of_fixed (frontStrip_frontStrip s), backStrip_backStrip]

theorem pyIsSpace_comp_toUpper : (pyIsSpace ∘ Char.toUpper) = pyIsSpace := by
  funext c
  simp [Function.comp, pyIsSpace, isWhitespace_toUpper]

theorem dropWhile_pyUpper (l : CName) :
    (pyUpper l).dropWhile pyIsSpace = pyUpper (l.dropWhile pyIsSpace) := by
  rw [pyUpper, List.dropWhile_map, pyIsSpace_comp_toUpper, pyUpper]

theorem reverse_pyUpper (l : CName) : (pyUpper l).reverse = pyUpper l.reverse := by
  rw [pyUpper, pyUpper, List.map_reverse]

theorem pyStrip_pyUpper (s : CName) : pyStrip (pyUpper s) = pyUpper (pyStrip s) := by
  unfold pyStrip frontStrip backStrip
  rw [dropWhile_pyUpper, reverse_pyUpper, dropWhile_pyUpper, reverse_pyUpper]

theorem pyUpper_pyUpper (s : CName) : pyUpper (pyUpper s) = pyUpper s := by
  unfold pyUpper
  rw [List.map_map]
  congr 1
  funext c
  simp [Function.comp, toUpper_toUpper]

theorem normalizeName_idem (s : CName) : normalizeName (normalizeName s) = normalizeName s := by
  unfold normalizeName
  rw [pyStrip_pyUpper, pyStrip_pyStrip, pyUpper_pyUpper]

/-- One row of the Loader's DataFrame (one Observation of the Snapshot).
The three numeric columns are nullable (NaN = `none`); `timestamp` is the
parsed `parse_dates=["timestamp"]` column. -/
structure Obs where
  companyName : CName
  last : Option ℚ
  percentageChange : Option ℚ
  negotiatedQuantity : Option ℚ
  timestamp : Int
deriving DecidableEq, Repr

/-- Ascending comparison used by `df.sort_values("timestamp")`. -/
def tsLe (a b : Obs) : Prop := a.timestamp ≤ b.timestamp

instance : DecidableRel tsLe := fun a b => Int.decLe a.timestamp b.timestamp

instance : IsTotal Obs tsLe := ⟨fun a b => Int.le_total a.timestamp b.timestamp⟩

instance : IsTrans Obs tsLe := ⟨fun _ _ _ hab hbc => le_trans hab hbc⟩

/-- Model of `df["companyName"] = df["companyName"].str.strip().str.upper()`
applied to one row. -/
def renormalizeRow (r : Obs) : Obs :=
  { companyName := normalizeName r.companyName
    last := r.last
    percentageChange := r.percentageChange
    negotiatedQuantity := r.negotiatedQuantity
    timestamp := r.timestamp }

/-- The failure modes of `CSVDataLoader._load_data` (both re-raised as an
`HTTPException(500, ...)`), plus the `FileNotFoundError` of
`find_csv_file`; all three are caught by the module-level
`try/except Exception` and replaced by `EmptyDataLoader`. -/
inductive LoadFailure where
  | fileNotFound
  | unreadable
  | missingRequiredColumns
deriving DecidableEq, Repr

/-- Model of `CSVDataLoader._load_data`: parse (`readable` = `pd.read_csv`
succeeded), validate the required columns, re-normalize the ticker
identity, and sort ascending by `timestamp`.  `sort_values` is modelled by
insertion sort (any sort of the rows by `timestamp` is a faithful model of
the column sort). -/
def load_data (readable hasRequiredColumns : Bool) (rows : List Obs) :
    Except LoadFailure (List Obs) :=
  if !readable then .error .unreadable
  else if !hasRequiredColumns then .error .missingRequiredColumns
  else .ok (List.insertionSort tsLe (rows.map renormalizeRow))

/-- The module-level startup block: on any load failure the service keeps
running with `EmptyDataLoader` (an explicitly-empty DataFrame) instead of
crashing. -/
def startup_data_loader (loaded : Except LoadFailure (List Obs)) : List Obs :=
  match loaded with
  | .ok df => df
  | .error _ => []

/-- The JSON body of `GET /health` (always returned with HTTP 200:
`health_check` is total and cannot raise). -/
structure HealthResponse where
  status : String
  data_loaded : Bool
  details : String
deriving DecidableEq, Repr

/-- The `/health` endpoint. -/
def health_check (df : List Obs) : HealthResponse :=
  { status := "running"
    data_loaded := !df.isEmpty
    details :=
      if df.isEmpty then "El backend esta funcionando pero sin datos"
      else "Datos cargados correctamente" }

/-- Model of `df["companyName"].unique().tolist()`: the distinct values in order of
first appearance. -/
def uniqueCompanies (l : List CName) : List CName :=
  l.foldl (fun acc n => if acc.contains n then acc else acc ++ [n]) []

/-- The `/api/companies` endpoint: 503 when the Snapshot is empty,
otherwise the distinct normalized tickers. -/
def get_companies (df : List Obs) : Except Nat (List CName) :=
  if df.isEmpty then .error 503
  else .ok (uniqueCompanies (df.map Obs.companyName))

/-- Claim C7: with the Store missing or empty the service starts in
degraded mode with an explicitly-empty Snapshot: every load failure is
absorbed into the empty Snapshot, `health_check` still answers normally
(HTTP 200) with `data_loaded = false`, and `get_companies` fails with 503
(ServiceUnavailable).  An empty-but-valid Store loads as the empty
Snapshot with the same two endpoint outcomes. -/
theorem claim_C7 :
    startup_data_loader (.error .fileNotFound) = []
    ∧ startup_data_loader (.error .unreadable) = []
    ∧ startup_data_loader (.error .missingRequiredColumns) = []
    ∧ startup_data_loader (load_data true true []) = []
    ∧ health_check [] =
        { status := "running"
          data_loaded := false
          details := "El backend esta funcionando pero sin datos" }
    ∧ get_companies [] = .error 503 :=
  ⟨rfl, rfl, rfl, rfl, rfl, rfl⟩

/-- Claim C9: every successfully loaded Snapshot is sorted with
non-decreasing `observedAt` across index order, and every ticker identity
in it is a fixed point of the normalization (strip + upper), i.e.
normalizing again is the identity. -/
theorem claim_C9 (readable hasRequiredColumns : Bool) (rows snapshot : List Obs)
    (h : load_data readable hasRequiredColumns rows = .ok snapshot) :
    List.Pairwise tsLe snapshot
    ∧ ∀ r ∈ snapshot, normalizeName r.companyName = r.companyName := by
  have hsnap : snapshot = List.insertionSort tsLe (rows.map renormalizeRow) := by
    cases readable <;> cases hasRequiredColumns <;> simp [load_data] at h
    exact h.symm
  constructor
  · rw [hsnap]
    exact List.sorted_insertionSort tsLe (rows.map renormalizeRow)
  · intro r hr
    rw [hsnap] at hr
    have hr' : r ∈ rows.map renormalizeRow :=
      (List.perm_insertionSort tsLe (rows.map renormalizeRow)).mem_iff.mp hr
    rcases List.mem_map.mp hr' with ⟨r0, _, hr0⟩
    rw [← hr0]
    exact normalizeName_idem r0.companyName

/-- A raw Store row whose ticker needs both trimming and upper-casing. -/
def rawObsSample : Obs :=
  { companyName := " Credicorp Ltd. ".toList
    last := some 10
    percentageChange := some 1
    negotiatedQuantity := some 5
    timestamp := 100 }

theorem claim_C9_witness :
    List.Pairwise tsLe (List.insertionSort tsLe ([rawObsSample].map renormalizeRow))
    ∧ ∀ r ∈ List.insertionSort tsLe ([rawObsSample].map renormalizeRow),
        normalizeName r.companyName = r.companyName :=
  claim_C9 true true [rawObsSample] _ rfl

/-! ### The `/api/credicorp` endpoint -/

/-- The hard-coded ticker filtered by `get_credicorp_data`. -/
def CREDICORP_TICKER : CName := "CREDICORP LTD.".toList

/-- Descending comparison used by
`sort_values("timestamp", ascending=False)`. -/
def tsGe (a b : Obs) : Prop := b.timestamp ≤ a.timestamp

instance : DecidableRel tsGe := fun a b => Int.decLe b.timestamp a.timestamp

instance : IsTotal Obs tsGe := ⟨fun a b => Int.le_total b.timestamp a.timestamp⟩

instance : IsTrans Obs tsGe := ⟨fun _ _ _ hab hbc => le_trans hbc hab⟩

/-- The `realtime` object of the response, projected from the latest row:
`float(x)` keeps a NaN as NaN, so each nullable cell passes through. -/
structure RealtimeData where
  price : Option ℚ
  variation : Option ℚ
  volume : Option ℚ
  timestamp : Int
deriving DecidableEq, Repr

/-- One entry of the `historical` array, before/after the null-drop
filter (dropped entries simply do not appear). -/
structure HistEntry where
  price : Option ℚ
  variation : Option ℚ
  volume : Option ℚ
  timestamp : Int
deriving DecidableEq, Repr

/-- The `metadata.time_range` object of the response. -/
structure TimeRange where
  rangeFrom : Int
  rangeTo : Int
deriving DecidableEq, Repr

/-- The `metadata` object of the response. -/
structure CredMetadata where
  data_points : Nat
  time_range : TimeRange
deriving DecidableEq, Repr

/-- The success body of `GET /api/credicorp`. -/
structure CredResponse where
  realtime : RealtimeData
  historical : List HistEntry
  metadata : CredMetadata
deriving DecidableEq, Repr

/-- The exceptions that can arise inside the endpoint's `try` block. -/
inductive PyExc where
  | httpExc (status : Nat) (detail : String)
  | valueExc (msg : String)
deriving DecidableEq, Repr

/-- The length of `timedelta(days=30)` in seconds. -/
def thirtyDays : Int := 30 * 24 * 60 * 60

/-- Model of `cutoff_date = datetime.now() - timedelta(days=30)`. -/
def cutoffInstant (now : Int) : Int := now - thirtyDays

/-- Model of `data_loader.df[data_loader.df["companyName"] == "CREDICORP LTD."]`. -/
def credRows (df : List Obs) : List Obs :=
  df.filter (fun r => decide (r.companyName = CREDICORP_TICKER))

/-- Model of `credicorp_data[credicorp_data["timestamp"] >= cutoff_date]`. -/
def windowRows (df : List Obs) (now : Int) : List Obs :=
  (credRows df).filter (fun r => decide (cutoffInstant now ≤ r.timestamp))

/-- The window rows sorted descending by `timestamp`
(`sort_values("timestamp", ascending=False)`). -/
def historicalSorted (df : List Obs) (now : Int) : List Obs :=
  List.insertionSort tsGe (windowRows df now)

/-- Projection of one window row into a `historical` entry: a NaN in
`last` / `percentageChange` / `negotiatedQuantity` becomes `None`. -/
def projectHist (r : Obs) : HistEntry :=
  { price := r.last
    variation := r.percentageChange
    volume := r.negotiatedQuantity
    timestamp := r.timestamp }

/-- The null-drop filter:
`all(value is not None for value in item.values())` (the numeric
`timestamp` is never `None`). -/
def histComplete (e : HistEntry) : Bool :=
  e.price.isSome && e.variation.isSome && e.volume.isSome

/-- The `historical` array actually returned: project, then drop every
entry containing a null. -/
def historicalData (df : List Obs) (now : Int) : List HistEntry :=
  ((historicalSorted df now).map projectHist).filter histComplete

/-- The body of the endpoint's `try` block.  Notes on fidelity:
`credicorp_data.iloc[-1]` is the last row of the filtered frame (modelled
with `getLast?`, `none` exactly when the frame is empty, in which case the
code raises `HTTPException(404, ...)` — still inside the `try`);
`historical["timestamp"].min()/.max()` are column aggregates of the
window frame, so they are computed over `windowRows` (sorting does not
change a column minimum); on an empty window frame pandas yields `NaT`
and `datetime.timestamp(NaT)` raises a `ValueError`. -/
def get_credicorp_body (df : List Obs) (now : Int) : Except PyExc CredResponse :=
  match (credRows df).getLast? with
  | none => .error (.httpExc 404 "No se encontraron datos para CREDICORP LTD.")
  | some latest =>
    match ((windowRows df now).map Obs.timestamp).min?,
        ((windowRows df now).map Obs.timestamp).max? with
    | some tmin, some tmax =>
      .ok { realtime :=
              { price := latest.last
                variation := latest.percentageChange
                volume := latest.negotiatedQuantity
                timestamp := latest.timestamp }
            historical := historicalData df now
            metadata :=
              { data_points := (historicalData df now).length
                time_range := { rangeFrom := tmin, rangeTo := tmax } } }
    | _, _ => .error (.valueExc "NaTType does not support timestamp")

/-- The whole endpoint: `except Exception as e:` catches EVERY exception
raised in the body — including the endpoint's own `HTTPException(404)` —
and re-raises it as `HTTPException(500, "Error procesando datos de
Credicorp: ...")`. -/
def get_credicorp_data (df : List Obs) (now : Int) : Except (Nat × String) CredResponse :=
  match get_credicorp_body df now with
  | .ok r => .ok r
  | .error _ => .error (500, "Error procesando datos de Credicorp")

/-- Inversion of a successful `/api/credicorp` response: the filtered
frame was non-empty, and each response field is pinned to the pipeline's
value. -/
theorem get_credicorp_ok_inv {df : List Obs} {now : Int} {resp : CredResponse}
    (h : get_credicorp_data df now = .ok resp) :
    ∃ latest, (credRows df).getLast? = some latest
      ∧ resp.realtime.timestamp = latest.timestamp
      ∧ resp.historical = historicalData df now
      ∧ resp.metadata.data_points = (historicalData df now).length
      ∧ ((windowRows df now).map Obs.timestamp).min? = some resp.metadata.time_range.rangeFrom
      ∧ ((windowRows df now).map Obs.timestamp).max? = some resp.metadata.time_range.rangeTo := by
  unfold get_credicorp_data get_credicorp_body at h
  split at h
  · rename_i r hbody
    simp only [Except.ok.injEq] at h
    subst h
    split at hbody
    · exact absurd hbody (by simp)
    · rename_i latest hl
      split at hbody
      · rename_i tmin tmax hmin hmax
        simp only [Except.ok.injEq] at hbody
        subst hbody
        exact ⟨latest, hl, rfl, rfl, rfl, hmin, hmax⟩
      · exact absurd hbody (by simp)
  · exact absurd h (by simp)

/-- In a `timestamp`-sorted frame, `iloc[-1]` carries the maximal
timestamp. -/
theorem timestamp_le_getLast {l : List Obs} (hp : List.Pairwise tsLe l) {latest : Obs}
    (hl : l.getLast? = some latest) : ∀ x ∈ l, x.timestamp ≤ latest.timestamp := by
  induction l with
  | nil => simp at hl
  | cons a rest ih =>
    intro x hx
    cases rest with
    | nil =>
      simp at hl hx
      rw [hx, hl]
    | cons b t =>
      rw [List.getLast?_cons_cons] at hl
      rcases List.mem_cons.mp hx with rfl | hx'
      · have hmem : latest ∈ b :: t := by
          have hg := List.getLast?_eq_getLast (b :: t) (List.cons_ne_nil _ _)
          rw [hg] at hl
          injection hl with hh
          rw [← hh]
          exact List.getLast_mem _
        exact (List.pairwise_cons.mp hp).1 latest hmem
      · exact ih (List.pairwise_cons.mp hp).2 hl x hx'

/-- Claim C4: on a Loader-sorted Snapshot, a successful ticker view has
(a) every historical entry inside the 30-day window and no later than the
realtime row's timestamp, (b) the historical list sorted descending by
timestamp, and (c) the historical list containing exactly the projections
of the ticker's in-window rows that carry no null in a projected field. -/
theorem claim_C4 (df : List Obs) (now : Int) (resp : CredResponse)
    (hsorted : List.Pairwise tsLe df)
    (h : get_credicorp_data df now = .ok resp) :
    (∀ e ∈ resp.historical,
        cutoffInstant now ≤ e.timestamp ∧ e.timestamp ≤ resp.realtime.timestamp)
    ∧ List.Pairwise (fun a b : HistEntry => b.timestamp ≤ a.timestamp) resp.historical
    ∧ (∀ e, e ∈ resp.historical ↔
        ∃ o ∈ df, o.companyName = CREDICORP_TICKER ∧ cutoffInstant now ≤ o.timestamp
          ∧ histComplete (projectHist o) = true ∧ projectHist o = e) := by
  rcases get_credicorp_ok_inv h with ⟨latest, hl, hrt, hhist, _, _, _⟩
  have hwinmem : ∀ o : Obs, o ∈ windowRows df now ↔
      o ∈ df ∧ o.companyName = CREDICORP_TICKER ∧ cutoffInstant now ≤ o.timestamp := by
    intro o
    unfold windowRows credRows
    simp only [List.mem_filter, decide_eq_true_eq, and_assoc]
  have hmemhd : ∀ e : HistEntry, e ∈ historicalData df now ↔
      (∃ o ∈ windowRows df now, projectHist o = e) ∧ histComplete e = true := by
    intro e
    unfold historicalData
    rw [List.mem_filter]
    constructor
    · rintro ⟨hmm, hc⟩
      rcases List.mem_map.mp hmm with ⟨o, ho, rfl⟩
      exact ⟨⟨o, (List.perm_insertionSort tsGe _).mem_iff.mp ho, rfl⟩, hc⟩
    · rintro ⟨⟨o, ho, rfl⟩, hc⟩
      exact ⟨List.mem_map.mpr ⟨o, (List.perm_insertionSort tsGe _).mem_iff.mpr ho, rfl⟩, hc⟩
  refine ⟨?_, ?_, ?_⟩
  · intro e he
    rw [hhist] at he
    rcases (hmemhd e).mp he with ⟨⟨o, ho, rfl⟩, _⟩
    rcases (hwinmem o).mp ho with ⟨hodf, hname, hcut⟩
    refine ⟨hcut, ?_⟩
    rw [hrt]
    have hcredmem : o ∈ credRows df := by
      unfold windowRows at ho
      exact (List.mem_filter.mp ho).1
    have hcp : List.Pairwise tsLe (credRows df) := hsorted.filter _
    exact timestamp_le_getLast hcp hl o hcredmem
  · rw [hhist]
    unfold historicalData
    have hps : List.Pairwise tsGe (historicalSorted df now) :=
      List.sorted_insertionSort tsGe _
    have hmap : List.Pairwise (fun a b : HistEntry => b.timestamp ≤ a.timestamp)
        ((historicalSorted df now).map projectHist) :=
      List.Pairwise.map projectHist (fun a b hab => hab) hps
    exact hmap.filter _
  · intro e
    rw [hhist, hmemhd e]
    constructor
    · rintro ⟨⟨o, ho, rfl⟩, hc⟩
      rcases (hwinmem o).mp ho with ⟨hodf, hname, hcut⟩
      exact ⟨o, hodf, hname, hcut, hc, rfl⟩
    · rintro ⟨o, hodf, hname, hcut, hc, rfl⟩
      exact ⟨⟨o, (hwinmem o).mpr ⟨hodf, hname, hcut⟩, rfl⟩, hc⟩

/-- An in-window Credicorp row with no nulls. -/
def credObsSample : Obs :=
  { companyName := CREDICORP_TICKER
    last := some 10
    percentageChange := some 1
    negotiatedQuantity := some 5
    timestamp := 100 }

/-- The response the endpoint produces for `[credObsSample]` at time 200. -/
def credRespSample : CredResponse :=
  { realtime := { price := some 10, variation := some 1, volume := some 5, timestamp := 100 }
    historical := [{ price := some 10, variation := some 1, volume := some 5, timestamp := 100 }]
    metadata := { data_points := 1, time_range := { rangeFrom := 100, rangeTo := 100 } } }

theorem claim_C4_witness :
    (∀ e ∈ credRespSample.historical,
        cutoffInstant 200 ≤ e.timestamp ∧ e.timestamp ≤ credRespSample.realtime.timestamp)
    ∧ List.Pairwise (fun a b : HistEntry => b.timestamp ≤ a.timestamp) credRespSample.historical
    ∧ (∀ e, e ∈ credRespSample.historical ↔
        ∃ o ∈ [credObsSample], o.companyName = CREDICORP_TICKER ∧ cutoffInstant 200 ≤ o.timestamp
          ∧ histComplete (projectHist o) = true ∧ projectHist o = e) :=
  claim_C4 [credObsSample] 200 credRespSample (List.pairwise_singleton _ _) rfl

/-- A non-empty Snapshot that contains no row for the requested ticker. -/
def otherObsSample : Obs :=
  { companyName := "OTHER LTD.".toList
    last := some 3
    percentageChange := some 0
    negotiatedQuantity := some 0
    timestamp := 50 }

/-- Claim C6 is violated by the code: on a non-empty Snapshot with no
matching row, the body does raise `HTTPException(404, ...)` — but it does
so inside the endpoint's own `try` block, whose `except Exception` clause
catches it and re-raises `HTTPException(500, ...)`.  The caller therefore
sees 500, never 404, for an unknown ticker. -/
theorem claim_C6_bug :
    get_credicorp_body [otherObsSample] 100 =
      .error (.httpExc 404 "No se encontraron datos para CREDICORP LTD.")
    ∧ get_credicorp_data [otherObsSample] 100 =
      .error (500, "Error procesando datos de Credicorp") :=
  ⟨rfl, rfl⟩

/-- An in-window row for the ticker whose `last` cell is NaN: it is
null-dropped from `historical` but still counted by the range aggregate. -/
def c5RowNullPrice : Obs :=
  { companyName := CREDICORP_TICKER
    last := none
    percentageChange := some 0
    negotiatedQuantity := some 0
    timestamp := 100 }

/-- An in-window row for the ticker with no nulls. -/
def c5RowFull : Obs :=
  { companyName := CREDICORP_TICKER
    last := some 10
    percentageChange := some 0
    negotiatedQuantity := some 0
    timestamp := 200 }

/-- The endpoint's response for `[c5RowNullPrice, c5RowFull]` at time 300. -/
def c5Resp : CredResponse :=
  { realtime := { price := some 10, variation := some 0, volume := some 0, timestamp := 200 }
    historical := [{ price := some 10, variation := some 0, volume := some 0, timestamp := 200 }]
    metadata := { data_points := 1, time_range := { rangeFrom := 100, rangeTo := 200 } } }

/-- Claim C5 fails on the code: the range aggregates are computed over the
window frame BEFORE the null-drop.  Here the null-dropped historical list
is `[entry at 200]`, whose minimal `observedAt` is 200, yet the reported
`rangeFrom` is 100 (the timestamp of the dropped entry). -/
theorem claim_C5_counterexample :
    get_credicorp_data [c5RowNullPrice, c5RowFull] 300 = .ok c5Resp
    ∧ c5Resp.historical.map HistEntry.timestamp = [200]
    ∧ (c5Resp.historical.map HistEntry.timestamp).min? = some 200
    ∧ c5Resp.metadata.time_range.rangeFrom = 100
    ∧ (100 : Int) ≠ 200 :=
  ⟨rfl, rfl, rfl, rfl, by decide⟩

/-- Claim C5 as amended: `metadata.count` does equal the length of the
post-null-drop historical list, but `rangeFrom`/`rangeTo` are the minimum
and maximum `observedAt` of the PRE-null-drop 30-day window rows (dropped
entries still count toward the range); and when the window itself is
empty the whole request fails with a 500 (pandas `NaT` has no
`timestamp()`), instead of reporting the range as absent. -/
theorem claim_C5_amended (df : List Obs) (now : Int) :
    (∀ resp, get_credicorp_data df now = .ok resp →
        resp.metadata.data_points = resp.historical.length
        ∧ ((windowRows df now).map Obs.timestamp).min? = some resp.metadata.time_range.rangeFrom
        ∧ ((windowRows df now).map Obs.timestamp).max? = some resp.metadata.time_range.rangeTo)
    ∧ (credRows df ≠ [] → windowRows df now = [] →
        get_credicorp_data df now = .error (500, "Error procesando datos de Credicorp")) := by
  constructor
  · intro resp h
    rcases get_credicorp_ok_inv h with ⟨latest, _, _, hhist, hcount, hmin, hmax⟩
    refine ⟨?_, hmin, hmax⟩
    rw [hcount, hhist]
  · intro hcred hwin
    unfold get_credicorp_data get_credicorp_body
    rw [List.getLast?_eq_getLast _ hcred, hwin]
    rfl

theorem claim_C5_amended_witness :
    (c5Resp.metadata.data_points = c5Resp.historical.length
      ∧ ((windowRows [c5RowNullPrice, c5RowFull] 300).map Obs.timestamp).min? =
          some c5Resp.metadata.time_range.rangeFrom
      ∧ ((windowRows [c5RowNullPrice, c5RowFull] 300).map Obs.timestamp).max? =
          some c5Resp.metadata.time_range.rangeTo)
    ∧ get_credicorp_data [c5RowFull] 10000000 =
        .error (500, "Error procesando datos de Credicorp") :=
  ⟨(claim_C5_amended [c5RowNullPrice, c5RowFull] 300).1 c5Resp rfl,
    (claim_C5_amended [c5RowFull] 10000000).2 (by decide) rfl⟩

/-- Unfolding of `process_data` on a well-formed list payload. -/
theorem process_data_eq (records : List RawRec) (target_companies : List CName) (now : Int) :
    process_data (.list records) target_companies now =
      if (records.filter (fun c => target_companies.contains c.companyName)).isEmpty then none
      else if quoteColumnsPresent
          (records.filter (fun c => target_companies.contains c.companyName)) then
        some ((records.filter (fun c => target_companies.contains c.companyName)).map
          (fun c =>
            { companyName := c.companyName
              buy := cellFillZero c.buy
              sell := cellFillZero c.sell
              last := c.last
              timestamp := now }))
      else none := rfl

/-- The raw batch of the spec's scenario, exactly as written there: each
record carries only its ticker and `last` — no `buy`/`sell` keys. -/
def acmeScenarioRecords : List RawRec :=
  [{ companyName := "ACME".toList, buy := .absent, sell := .absent, last := some 10.5 },
   { companyName := "OTHER".toList, buy := .absent, sell := .absent, last := some 3 }]

/-- Claim C8 fails on the code at its own scenario: with raw batch
[ACME last=10.5, OTHER last=3] (no `buy`/`sell` keys) and target set
ACME, the retained-record DataFrame has no `buy`/`sell` columns, so
`df[["buy", "sell"]]` raises `KeyError` and `process_data` returns
`None` — not the claimed one-row defaulted batch. -/
theorem claim_C8_counterexample :
    process_data (.list acmeScenarioRecords) ["ACME".toList] 0 = none
    ∧ (none : Option (List ProcRec)) ≠
        some [{ companyName := "ACME".toList, buy := 0, sell := 0, last := some 10.5,
                timestamp := 0 }] :=
  ⟨rfl, fun h => Option.noConfusion h⟩

/-- Claim C8 as amended: the Normalizer keeps exactly the raw records
whose ticker identity is in the target set and fails (the NoTargetMatch
`None`) when that filter is empty; the buy/sell defaulting to 0 applies
per CELL, not per column — whenever each of the two keys is carried by
at least one retained record, every absent-or-null cell of a retained
row defaults to 0 — but when either key is carried by NO retained
record the DataFrame lacks that column, `df[["buy", "sell"]]` raises
`KeyError` and process_data fails (returns `None`) instead of
defaulting.  In particular the spec's scenario (records without
`buy`/`sell` keys) yields `None`, while its variant with null-valued
`buy`/`sell` keys yields the one-row ACME batch with `buy = sell = 0`. -/
theorem claim_C8_amended (records : List RawRec) (target_companies : List CName) (now : Int) :
    ((records.filter (fun c => target_companies.contains c.companyName)).isEmpty = true →
        process_data (.list records) target_companies now = none)
    ∧ (((records.filter (fun c => target_companies.contains c.companyName)).any
          (fun c => cellKeyPresent c.buy) = false
        ∨ (records.filter (fun c => target_companies.contains c.companyName)).any
          (fun c => cellKeyPresent c.sell) = false) →
        process_data (.list records) target_companies now = none)
    ∧ (∀ out, process_data (.list records) target_companies now = some out →
        out = (records.filter (fun c => target_companies.contains c.companyName)).map
          (fun c =>
            { companyName := c.companyName
              buy := cellFillZero c.buy
              sell := cellFillZero c.sell
              last := c.last
              timestamp := now }))
    ∧ process_data
        (.list [{ companyName := "ACME".toList, buy := .null, sell := .null, last := some 10.5 },
                { companyName := "OTHER".toList, buy := .null, sell := .null, last := some 3 }])
        ["ACME".toList] now =
      some [{ companyName := "ACME".toList
              buy := 0
              sell := 0
              last := some 10.5
              timestamp := now }] := by
  refine ⟨?_, ?_, ?_, rfl⟩
  · intro hempty
    rw [process_data_eq, if_pos hempty]
  · intro hcol
    rw [process_data_eq]
    by_cases hempty :
        (records.filter (fun c => target_companies.contains c.companyName)).isEmpty
    · rw [if_pos hempty]
    · have hfalse : quoteColumnsPresent
          (records.filter (fun c => target_companies.contains c.companyName)) = false := by
        unfold quoteColumnsPresent
        rcases hcol with h | h
        · rw [h, Bool.false_and]
        · rw [h, Bool.and_false]
      rw [if_neg hempty, if_neg (fun hc => Bool.false_ne_true (hfalse ▸ hc))]
  · intro out h
    rw [process_data_eq] at h
    by_cases hempty :
        (records.filter (fun c => target_companies.contains c.companyName)).isEmpty
    · rw [if_pos hempty] at h
      exact absurd h (by simp)
    · rw [if_neg hempty] at h
      by_cases hcols : quoteColumnsPresent
          (records.filter (fun c => target_companies.contains c.companyName)) = true
      · rw [if_pos hcols] at h
        exact (Option.some.inj h).symm
      · rw [if_neg hcols] at h
        exact absurd h (by simp)

/-- A raw record for ACME whose `buy` key carries a number and whose
`sell` key is present but null (a NaN cell of an existing column). -/
def acmeRawSample : RawRec :=
  { companyName := "ACME".toList, buy := .num 1, sell := .null, last := none }

theorem claim_C8_amended_witness :
    process_data (.list []) ["ACME".toList] 0 = none
    ∧ process_data (.list acmeScenarioRecords) ["ACME".toList] 0 = none
    ∧ [({ companyName := "ACME".toList, buy := 1, sell := 0, last := none,
          timestamp := 0 } : ProcRec)] =
        ([acmeRawSample].filter (fun c => ["ACME".toList].contains c.companyName)).map
          (fun c =>
            { companyName := c.companyName
              buy := cellFillZero c.buy
              sell := cellFillZero c.sell
              last := c.last
              timestamp := 0 }) :=
  ⟨(claim_C8_amended [] ["ACME".toList] 0).1 rfl,
    (claim_C8_amended acmeScenarioRecords ["ACME".toList] 0).2.1 (Or.inl rfl),
    (claim_C8_amended [acmeRawSample] ["ACME".toList] 0).2.2.1 _ rfl⟩
